import Mathlib

/-!
Verification of the NimbusDFIR operator scripts (AWS / Azure cloud lifecycle and
DFIR helpers).  Each Python function relevant to the properties below is given a
shallow embedding: interactive input lines, provider-listing results and the
success/failure of provider calls become explicit parameters, and each function
returns a record describing its observable effects (prompts shown, provider
calls issued, files written, messages printed).  The embeddings follow the
Python sources statement by statement.
-/

/-! ## Models of the Python string primitives used by the scripts -/

/-- Model of Python `str.lower()` for the ASCII inputs handled by the scripts:
uppercase ASCII letters are shifted into lowercase, all other characters are
kept. -/
def pyCharLower (c : Char) : Char :=
  if 'A' ≤ c ∧ c ≤ 'Z' then Char.ofNat (c.toNat + 32) else c

/-- Model of Python `str.lower()` applied to a whole string. -/
def pyLower (s : String) : String :=
  ⟨s.data.map pyCharLower⟩

/-- ASCII decimal digit test, the relevant case of Python `str.isdigit()` on a
single character. -/
def pyIsDigitChar (c : Char) : Bool :=
  '0' ≤ c ∧ c ≤ '9'

/-- Model of Python `str.isdigit()`: true iff the string is non-empty and all
its characters are decimal digits. -/
def pyIsDigit (s : String) : Bool :=
  !s.isEmpty && s.data.all pyIsDigitChar

/-- Whitespace as recognized by Python `str.strip()` (ASCII cases). -/
def pyIsSpaceChar (c : Char) : Bool :=
  c == ' ' || c == '\t' || c == '\n' || c == '\r' || c == '\x0b' || c == '\x0c'

/-- Python `str.strip()` on the character list: whitespace removed from both
ends. -/
def pyStripChars (l : List Char) : List Char :=
  ((l.dropWhile pyIsSpaceChar).reverse.dropWhile pyIsSpaceChar).reverse

/-- Model of Python `str.strip()`. -/
def pyStrip (s : String) : String :=
  ⟨pyStripChars s.data⟩

/-- Numeric value of a digit list (most significant first). -/
def digitsToNat (l : List Char) : Nat :=
  l.foldl (fun a c => a * 10 + (c.toNat - 48)) 0

/-- Model of Python `int(s)` on the ASCII inputs the scripts see: surrounding
whitespace is stripped, an optional sign is accepted, and the remainder must be
a non-empty digit string; otherwise a `ValueError` is raised (modelled as
`none`). -/
def pyParseInt (s : String) : Option Int :=
  match pyStripChars s.data with
  | [] => none
  | c :: rest =>
      let signed : Int × List Char :=
        if c = '-' then (-1, rest)
        else if c = '+' then (1, rest)
        else (1, c :: rest)
      if signed.2 ≠ [] ∧ signed.2.all pyIsDigitChar then
        some (signed.1 * digitsToNat signed.2)
      else none

/-- Model of Python `getattr`/attribute access on a class with a fixed
attribute table: returns the attribute value, or `none` for the
`AttributeError` case. -/
def pyGetattr (attrs : List (String × String)) (name : String) : Option String :=
  (attrs.find? (fun kv => kv.1 == name)).map (·.2)

/-! ## `src/AWS/ec2_evidence_preservation.py` -/

namespace EC2Evidence

/-- Attribute table of the `Colors` class of `ec2_evidence_preservation.py`
(lines 20–27): it defines `RED GREEN YELLOW BLUE CYAN MAGENTA NC` and nothing
else — in particular no `WHITE`. -/
def ColorsAttrs : List (String × String) :=
  [("RED", "\x1b[0;31m"), ("GREEN", "\x1b[0;32m"), ("YELLOW", "\x1b[1;33m"),
   ("BLUE", "\x1b[0;34m"), ("CYAN", "\x1b[0;36m"), ("MAGENTA", "\x1b[0;35m"),
   ("NC", "\x1b[0m")]

/-- One row of the numbered instance list built by `get_instance_selection`. -/
structure InstanceInfo where
  instance_id : String
  name : String
  state : String
  instanceType : String
deriving Repr, DecidableEq

/-- Result of `get_instance_selection`.  The Python function returns the
selected instance id or `None`; the constructors record which of the distinct
message paths produced the `None` (no instances listed, user cancelled with
`q`, digit out of the 1..N range, or `int()` raised `ValueError`). -/
inductive SelectionResult where
  | noInstances
  | cancelled
  | selected (id : String)
  | invalidRange (n : Nat)
  | invalidNumber
deriving Repr, DecidableEq

/-- The non-terminated filter applied while building the list (line 100). -/
def liveInstances (raw : List InstanceInfo) : List InstanceInfo :=
  raw.filter (fun i => i.state ≠ "terminated")

/-- Model of `get_instance_selection` (lines 84–148).  `raw` is the instance
collection returned by `describe_instances`, `selection` the one line read from
the user.  Terminated instances are filtered out; an empty list returns
immediately; `q` (case-insensitive) cancels; an in-range integer resolves to
that candidate; an out-of-range integer or an unparsable string prints an
invalid-selection error and returns `None`. -/
def get_instance_selection (raw : List InstanceInfo) (selection : String) :
    SelectionResult :=
  let instances := liveInstances raw
  if instances.isEmpty then .noInstances
  else if pyLower selection = "q" then .cancelled
  else
    match pyParseInt selection with
    | some k =>
        if 1 ≤ k ∧ k ≤ (instances.length : Int) then
          match instances[(k - 1).toNat]? with
          | some sel => .selected sel.instance_id
          | none => .invalidRange instances.length
        else .invalidRange instances.length
    | none => .invalidNumber

/-- One row of the snapshot list rendered by `delete_snapshot`. -/
structure SnapInfo where
  snapshot_id : String
  name : String
  state : String
deriving Repr, DecidableEq

/-- Observable effects of one `delete_snapshot` run. -/
structure DelSnapRun where
  /-- snapshot id the run settled on, if any -/
  resolvedId : Option String
  /-- the deletion-reason prompt was reached -/
  reasonPromptReached : Bool
  /-- the first (`Type DELETE`) prompt was shown -/
  firstPromptShown : Bool
  /-- the second (`yes/no`) prompt was shown -/
  secondPromptShown : Bool
  /-- the deletion audit report (`new_evidence_report`) was written -/
  auditWritten : Bool
  /-- snapshot ids passed to the `ec2.delete_snapshot` provider call -/
  deleteCalls : List String
deriving Repr, DecidableEq

/-- A `delete_snapshot` run that aborted before resolving a snapshot. -/
def abortedRun : DelSnapRun :=
  ⟨none, false, false, false, false, []⟩

/-- Lines 534–602 of `delete_snapshot`: resolve the snapshot id, either from
the command-line argument or from the rendered list and the selection input. -/
def resolve_snapshot_id (arg : Option String) (listed : List SnapInfo)
    (selection : String) : Option String :=
  match arg with
  | some i => some i
  | none =>
      if listed.isEmpty then none
      else if pyLower selection = "q" then none
      else
        match pyParseInt selection with
        | some k =>
            if 1 ≤ k ∧ k ≤ (listed.length : Int) then
              (listed[(k - 1).toNat]?).map (·.snapshot_id)
            else none
        | none => none

/-- Lines 604–670 of `delete_snapshot`: verification, reason prompt, the two
confirmation prompts, and finally audit report plus provider delete call. -/
def delete_snapshot_confirm_phase (id : String) (verifyOk : String → Bool)
    (reason confirm1 confirm2 : String) : DelSnapRun :=
  if !verifyOk id then { abortedRun with resolvedId := some id }
  else if pyStrip reason = "" then
    { abortedRun with resolvedId := some id, reasonPromptReached := true }
  else if confirm1 ≠ "DELETE" then
    { resolvedId := some id, reasonPromptReached := true,
      firstPromptShown := true, secondPromptShown := false,
      auditWritten := false, deleteCalls := [] }
  else if pyLower confirm2 ≠ "yes" then
    { resolvedId := some id, reasonPromptReached := true,
      firstPromptShown := true, secondPromptShown := true,
      auditWritten := false, deleteCalls := [] }
  else
    { resolvedId := some id, reasonPromptReached := true,
      firstPromptShown := true, secondPromptShown := true,
      auditWritten := true, deleteCalls := [id] }

/-- Model of `delete_snapshot` (lines 525–673).  Parameters: `arg` the optional
command-line snapshot id, `listed` the owned snapshots returned by
`describe_snapshots`, `selection` the list-selection input line, `verifyOk`
whether `describe_snapshots(SnapshotIds=[id])` succeeds for an id, and
`reason`, `confirm1`, `confirm2` the three further input lines.  The audit
report (line 656) and the `ec2.delete_snapshot` call (line 661) happen only
after the reason is non-blank, `confirm1` equals the exact-case literal
`DELETE` (line 637) and `confirm2` lowercases to `yes` (line 642). -/
def delete_snapshot (arg : Option String) (listed : List SnapInfo)
    (selection : String) (verifyOk : String → Bool)
    (reason confirm1 confirm2 : String) : DelSnapRun :=
  match resolve_snapshot_id arg listed selection with
  | none => abortedRun
  | some id => delete_snapshot_confirm_phase id verifyOk reason confirm1 confirm2

end EC2Evidence

namespace EC2Evidence

/-- Environment of one `new_evidence_report` run (lines 150–233): the two
timestamp strings taken at entry, the default Downloads directory, the custom
path typed by the user, the filesystem view (`os.path.exists`), whether
`os.makedirs` would succeed, and the metadata interpolated into the header. -/
structure ReportEnv where
  utcTimestamp : String
  fileTimestamp : String
  defaultPath : String
  customPathInput : String
  pathExists : String → Bool
  makedirsOk : Bool
  region : String
  operatorUser : String
  hostName : String

/-- Lines 163–170: the directory the run first settles on — the default
Downloads folder on blank input, the custom path when it exists, and the
default again (with a warning) when it does not. -/
def chosen_save_path (env : ReportEnv) : String :=
  if pyStrip env.customPathInput = "" then env.defaultPath
  else if env.pathExists env.customPathInput then env.customPathInput
  else env.defaultPath

/-- Lines 172–179: if the settled directory does not exist it is created with
`os.makedirs`; when that raises, the run falls back to the current working
directory `"."` instead of aborting. -/
def resolve_save_path (env : ReportEnv) : String :=
  let savePath := chosen_save_path env
  if env.pathExists savePath then savePath
  else if env.makedirsOk then savePath
  else "."

/-- Line 153: `evidence-report-<id>-<timestamp>.txt`. -/
def report_filename (instance_id fileTimestamp : String) : String :=
  "evidence-report-" ++ instance_id ++ "-" ++ fileTimestamp ++ ".txt"

/-- Model of `os.path.join(save_path, report_filename)` (line 181), POSIX flavour. -/
def report_file (instance_id : String) (env : ReportEnv) : String :=
  resolve_save_path env ++ "/" ++ report_filename instance_id env.fileTimestamp

/-- The 80-character `=` rule used by the report layout. -/
def equalsRule : String :=
  ⟨List.replicate 80 '='⟩

/-- The fixed part of the report before the details loop (lines 190–203). -/
def evidence_header (instance_id action : String) (env : ReportEnv) : String :=
  equalsRule ++ "\n" ++
  "AWS EC2 DIGITAL EVIDENCE PRESERVATION REPORT\n" ++
  equalsRule ++ "\n" ++
  "\nCASE INFORMATION:\n" ++
  "  Instance ID: " ++ instance_id ++ "\n" ++
  "  Action Performed: " ++ action ++ "\n" ++
  "  Timestamp: " ++ env.utcTimestamp ++ "\n" ++
  "  Operator: " ++ env.operatorUser ++ "\n" ++
  "  Computer: " ++ env.hostName ++ "\n" ++
  "  AWS Region: " ++ env.region ++ "\n" ++
  "\nEVIDENCE DETAILS:\n"

/-- The fixed part of the report after the details loop (lines 208–228). -/
def report_footer : String :=
  "\nCHAIN OF CUSTODY:\n" ++
  "  - Digital evidence preserved using AWS native tools\n" ++
  "  - All actions logged with timestamps and operator identification\n" ++
  "  - Evidence integrity maintained through AWS checksums and metadata\n" ++
  "\nVERIFICATION STEPS:\n" ++
  "  - Verify snapshot integrity using AWS console or CLI\n" ++
  "  - Document snapshot ID and creation timestamp\n" ++
  "  - Preserve this report as part of case documentation\n" ++
  "\nNEXT STEPS FOR DIGITAL FORENSICS ANALYST:\n" ++
  "  - Create EBS volume from snapshot for analysis\n" ++
  "  - Mount volume in isolated forensic workstation\n" ++
  "  - Perform disk imaging if required for legal proceedings\n" ++
  "  - Calculate and document hash values for court admissibility\n" ++
  "\n" ++ equalsRule ++ "\n" ++
  "Report generated by NimbusDFIR EC2 Evidence Preservation Tool\n" ++
  equalsRule ++ "\n"

/-- One iteration of the details loop (lines 205–206):
`report_content += f"  {key}: {value}\n"`. -/
def detailLine (kv : String × String) : String :=
  "  " ++ kv.1 ++ ": " ++ kv.2 ++ "\n"

/-- The full report text built by `new_evidence_report` (lines 190–228):
header, one `detailLine` per `details` entry in order, then the footer. -/
def report_content (instance_id action : String)
    (details : List (String × String)) (env : ReportEnv) : String :=
  (details.foldl (fun acc kv => acc ++ detailLine kv)
    (evidence_header instance_id action env)) ++ report_footer

/-- Characters of the rendered details block, in order. -/
def detailsData (details : List (String × String)) : List Char :=
  details.foldr (fun kv acc => (detailLine kv).data ++ acc) []

end EC2Evidence

namespace EC2Evidence

/-- Observable effects of one `create_snapshot_evidence` run. -/
structure CSERun where
  /-- volume ids passed to `ec2.create_snapshot`, in order -/
  snapshotCalls : List String
  /-- snapshot ids passed to `ec2.create_tags`, in order -/
  tagCalls : List String
  /-- the evidence report (`new_evidence_report`, line 497) was written -/
  reportWritten : Bool
  /-- the `Evidence preservation completed successfully!` banner (line 500)
  was printed -/
  completionBanner : Bool
  /-- message printed by the `except` handler (line 523), if it fired -/
  errorPrinted : Option String
deriving Repr, DecidableEq

/-- Model of `create_snapshot_evidence` (lines 382–523) with the instance id
already resolved.  Parameters: `instanceFound` whether `describe_instances`
succeeds, `volumes` the attached `(volume_id, device_name)` pairs, the two
documentation inputs, and `snapOf` the snapshot id the provider returns for a
volume.  After the success prints, the chain-of-custody loop (lines 507–511)
evaluates `Colors.WHITE` — an attribute `ColorsAttrs` does not define — so on
any run with at least one snapshot the loop raises `AttributeError`, which the
surrounding handler converts into the `Error during snapshot creation: …`
message (Python renders the exception as
`type object 'Colors' has no attribute 'WHITE'`; the quotes are left out
here). -/
def create_snapshot_evidence (instanceFound : Bool)
    (volumes : List (String × String)) (case_number reason : String)
    (snapOf : String → String) : CSERun :=
  if !instanceFound then ⟨[], [], false, false, none⟩
  else if volumes.isEmpty then ⟨[], [], false, false, none⟩
  else
    let snaps := volumes.map (fun v => snapOf v.1)
    let run0 : CSERun :=
      ⟨volumes.map (·.1), snaps, true, true, none⟩
    match snaps with
    | [] => run0
    | _ :: _ =>
        match pyGetattr ColorsAttrs "WHITE" with
        | some _ => run0
        | none =>
            { run0 with
              errorPrinted := some
                ("Error during snapshot creation: type object Colors has no attribute WHITE") }

end EC2Evidence

namespace EC2Manager

/-- Observable effects of one `remove_instance` run. -/
structure RemoveRun where
  /-- instance ids passed to `ec2.terminate_instances` -/
  terminateCalls : List String
  /-- the `✓ Instance … is being terminated` success message was printed -/
  successMsg : Bool
  /-- an error message was printed -/
  errorMsg : Bool
  /-- the `Operation cancelled` message was printed -/
  cancelled : Bool
deriving Repr, DecidableEq

/-- Model of `remove_instance` (lines 202–233).  Parameters: `arg` the
optional command-line instance id, `typed` the id typed at the prompt when the
argument is absent or empty, `exists_` whether `describe_instances` succeeds
for an id, `confirm` the confirmation input line, and `terminateOk` whether
the `terminate_instances` call succeeds.  The confirmation (line 222) is
`input(...).strip().lower()` compared against `"yes"`. -/
def remove_instance (arg : Option String) (typed : String)
    (exists_ : String → Bool) (confirm : String) (terminateOk : Bool) :
    RemoveRun :=
  let fromArg := arg.getD ""
  let instance_id := if fromArg = "" then pyStrip typed else fromArg
  if instance_id = "" then ⟨[], false, true, false⟩
  else if exists_ instance_id = false then ⟨[], false, true, false⟩
  else if pyLower (pyStrip confirm) ≠ "yes" then ⟨[], false, false, true⟩
  else if terminateOk then ⟨[instance_id], true, false, false⟩
  else ⟨[instance_id], false, true, false⟩

/-- Exit behaviour of one `ec2_manager.py` process run. -/
structure MainRun where
  exitCode : Nat
  usageShown : Bool
deriving Repr, DecidableEq

/-- Commands `main` dispatches to a handler (lines 323–332). -/
def handledCommands : List String :=
  ["list", "create", "remove", "terminate", "start", "stop"]

/-- Model of `ec2_manager.main` (lines 309–339).  `args` is `sys.argv[1:]`.
Credentials are checked first (exit 1 on failure); with no command the usage
is shown and the process exits 0; a handled command runs its handler — every
handler catches its own `ClientError`, prints the error and returns, so `main`
falls through and the process exits 0 whether or not the action succeeded
(`actionOk` does not influence the exit code); `help` variants show usage and
exit 0; anything else shows usage and exits 1. -/
def ec2_manager_main (credsOk : Bool) (args : List String) (actionOk : Bool) :
    MainRun :=
  if ¬credsOk then ⟨1, false⟩
  else
    match args with
    | [] => ⟨0, true⟩
    | c :: _ =>
        let command := pyLower c
        if command ∈ handledCommands then
          ⟨0, false⟩
        else if command ∈ ["help", "--help", "-h"] then ⟨0, true⟩
        else ⟨1, true⟩

end EC2Manager

namespace VMManager

/-- Exit behaviour of one `vm_manager.py` process run. -/
structure MainRun where
  exitCode : Nat
  usageShown : Bool
deriving Repr, DecidableEq

/-- Result of one command handler: the `sys.exit` code when the handler
exits the process itself, `none` when it returns to `main` (which then falls
off and the process exits 0); plus whether an error message was printed. -/
structure HandlerRun where
  exitCode : Option Nat
  errorPrinted : Bool
deriving Repr, DecidableEq

/-- The `choices` list of the `command` argument (lines 675–679). -/
def commandChoices : List String :=
  ["list", "create", "delete", "start", "stop", "help"]

/-- Model of `list_vms` (lines 108–144).  `listOk` is the outcome of
`az vm list`, `parseOk` of the JSON parse.  Both failure branches print the
error and `return` — they never call `sys.exit`, so a `list` run always exits
0 even when the listing fails. -/
def list_vms (listOk parseOk : Bool) : HandlerRun :=
  if ¬listOk then ⟨none, true⟩
  else if ¬parseOk then ⟨none, true⟩
  else ⟨none, false⟩

/-- Model of `create_vm` (lines 146–310).  `rgReady` is whether the resource
group exists or its creation succeeded: on a failed `az group create` the
handler prints the error and `return`s (lines 200–202, process exits 0).
`createOk` is the `az vm create` outcome: failure calls `sys.exit(1)`
(line 310). -/
def create_vm (rgReady createOk : Bool) : HandlerRun :=
  if ¬rgReady then ⟨none, true⟩
  else if createOk then ⟨none, false⟩
  else ⟨some 1, true⟩

/-- Outcome of the interactive VM-selection phase shared by the
no-argument paths of `delete_vm` (lines 314–366), `start_vm` (lines 484–542)
and `stop_vm` (lines 573–626). -/
inductive SelectPhase where
  /-- the handler printed the listing/parse error and returned (the process
  then exits 0) -/
  | returned
  /-- the handler called `sys.exit code` -/
  | exited (code : Nat)
  /-- a VM name was resolved and the handler continues -/
  | selected (name : String)
deriving Repr, DecidableEq

/-- The interactive selection: a failed `az vm list` or JSON parse prints the
error and returns; an empty (filtered) candidate list exits 0; stripped input
`0` or empty cancels with exit 0; an in-range integer resolves; an
out-of-range integer or an unparsable input prints `Invalid selection` and
exits 1. -/
def interactive_vm_selection (listOk parseOk : Bool)
    (candidates : List String) (selection : String) : SelectPhase :=
  if ¬listOk then .returned
  else if ¬parseOk then .returned
  else if candidates.isEmpty then .exited 0
  else
    let sel := pyStrip selection
    if sel = "0" ∨ sel = "" then .exited 0
    else
      match pyParseInt sel with
      | some k =>
          if 1 ≤ k ∧ k ≤ (candidates.length : Int) then
            match candidates[(k - 1).toNat]? with
            | some name => .selected name
            | none => .exited 1
          else .exited 1
      | none => .exited 1

/-- The named-argument lookup shared by `delete_vm` (lines 368–390),
`start_vm` (lines 543–563) and `stop_vm` (lines 629–649): a failed
`az vm list` query, a JSON parse error or an empty result each call
`sys.exit(1)`. -/
def resolve_named_vm (lookupOk parseOk found : Bool) : Option Nat :=
  if ¬lookupOk then some 1
  else if ¬parseOk then some 1
  else if ¬found then some 1
  else none

/-- Phase common to `start_vm` and `stop_vm` after `main` dispatches: resolve
the VM (interactively or by name), then run the power action —
`sys.exit(1)` on failure (lines 569–570 / 652–654), fall through on
success. -/
def vm_power_action (arg : Option String) (listOk parseOk : Bool)
    (candidates : List String) (selection : String) (found : Bool)
    (actionOk : Bool) : HandlerRun :=
  let vm_name := arg.getD ""
  if vm_name = "" then
    match interactive_vm_selection listOk parseOk candidates selection with
    | .returned => ⟨none, true⟩
    | .exited code => ⟨some code, code ≠ 0⟩
    | .selected _ =>
        if actionOk then ⟨none, false⟩ else ⟨some 1, true⟩
  else
    match resolve_named_vm listOk parseOk found with
    | some code => ⟨some code, true⟩
    | none => if actionOk then ⟨none, false⟩ else ⟨some 1, true⟩

/-- Model of `start_vm` (lines 484–570). -/
def start_vm (arg : Option String) (listOk parseOk : Bool)
    (candidates : List String) (selection : String) (found : Bool)
    (actionOk : Bool) : HandlerRun :=
  vm_power_action arg listOk parseOk candidates selection found actionOk

/-- Model of `stop_vm` (lines 572–654). -/
def stop_vm (arg : Option String) (listOk parseOk : Bool)
    (candidates : List String) (selection : String) (found : Bool)
    (actionOk : Bool) : HandlerRun :=
  vm_power_action arg listOk parseOk candidates selection found actionOk

/-- Model of `delete_vm` (lines 312–482): like the power actions but with a
confirmation prompt — a stripped, lowercased input other than `y` prints
`Deletion cancelled` and exits 0 (lines 394–397); the associated-resource
cleanup loop after a successful delete swallows its own failures. -/
def delete_vm (arg : Option String) (listOk parseOk : Bool)
    (candidates : List String) (selection : String) (found : Bool)
    (confirm : String) (deleteOk : Bool) : HandlerRun :=
  let vm_name := arg.getD ""
  let resolved : SelectPhase :=
    if vm_name = "" then
      interactive_vm_selection listOk parseOk candidates selection
    else
      match resolve_named_vm listOk parseOk found with
      | some code => .exited code
      | none => .selected vm_name
  match resolved with
  | .returned => ⟨none, true⟩
  | .exited code => ⟨some code, code ≠ 0⟩
  | .selected _ =>
      if pyLower (pyStrip confirm) ≠ "y" then ⟨some 0, false⟩
      else if deleteOk then ⟨none, false⟩
      else ⟨some 1, true⟩

/-- Model of `vm_manager.main` (lines 657–706).  `args` is `sys.argv[1:]`.
With no arguments the usage is shown and the process exits 1 (lines
683–685) before `parse_args`.  `argparse` handles `-h`/`--help` itself,
printing the help and exiting 0, and rejects a command outside
`commandChoices` with its own error and exit code 2.  The `help` command
shows usage and returns (exit 0) before the prerequisite check; missing
prerequisites exit 1; then the command handler runs and the process exit
code is the handler's `sys.exit` code, or 0 when the handler returns. -/
def vm_manager_main (args : List String) (credsOk : Bool)
    (listOk parseOk : Bool) (candidates : List String) (selection : String)
    (found : Bool) (confirm : String) (rgReady actionOk : Bool) : MainRun :=
  match args with
  | [] => ⟨1, true⟩
  | c :: rest =>
      if c = "-h" ∨ c = "--help" then ⟨0, true⟩
      else if c ∉ commandChoices then ⟨2, false⟩
      else if c = "help" then ⟨0, true⟩
      else if ¬credsOk then ⟨1, false⟩
      else
        let arg := rest.head?
        let run : HandlerRun :=
          if c = "list" then list_vms listOk parseOk
          else if c = "create" then create_vm rgReady actionOk
          else if c = "delete" then
            delete_vm arg listOk parseOk candidates selection found confirm
              actionOk
          else if c = "start" then
            start_vm arg listOk parseOk candidates selection found actionOk
          else
            stop_vm arg listOk parseOk candidates selection found actionOk
        match run.exitCode with
        | some code => ⟨code, false⟩
        | none => ⟨0, false⟩

end VMManager

namespace MySQLConnect

/-- The bounded SSH liveness loop of `connect_via_jumpserver`
(lines 352–369): `for i in range(fuel)` starting at index `start`, returning
the first index whose probe succeeds, `none` when the bound is exhausted. -/
def ssh_wait_loop (fuel start : Nat) (probe : Nat → Bool) : Option Nat :=
  match fuel with
  | 0 => none
  | f + 1 => if probe start then some start else ssh_wait_loop f (start + 1) probe

/-- Observable effects of one `connect_via_jumpserver` run. -/
structure TunnelRun where
  /-- number of SSH probe attempts performed -/
  probeAttempts : Nat
  /-- a probe succeeded within the bound -/
  sshReady : Bool
  /-- the `Error: SSH connection timeout` message was printed -/
  timeoutErrorPrinted : Bool
  /-- the `sys.exit` code, when the run exited the process -/
  exitCode : Option Nat
  /-- the `mysql` client connection through the tunnel was attempted -/
  mysqlAttempted : Bool
  /-- the MySQL firewall rule for the jump server was created -/
  firewallRuleCreated : Bool
deriving Repr, DecidableEq

/-- Model of `connect_via_jumpserver` (lines 344–469).  `probe i` is the
outcome of the `i`-th SSH probe (the `ssh … echo SSH ready` subprocess with a
1-second sleep after each failure); `mysql_user`/`mysql_password` the
credential inputs; `mysqlOk` the outcome of the tunnelled `mysql` run.  When
all 60 probes fail the function prints the timeout error and calls
`sys.exit(1)` (lines 371–373) before the firewall rule, the credential
prompts and the MySQL connection. -/
def connect_via_jumpserver (probe : Nat → Bool)
    (mysql_user mysql_password : String) (mysqlOk : Bool) : TunnelRun :=
  match ssh_wait_loop 60 0 probe with
  | none => ⟨60, false, true, some 1, false, false⟩
  | some i =>
      if mysql_user = "" then ⟨i + 1, true, false, some 1, false, true⟩
      else if mysql_password = "" then ⟨i + 1, true, false, some 1, false, true⟩
      else
        -- a failing tunnelled mysql run is printed and cleaned up but does
        -- not call sys.exit (lines 440–469)
        ⟨i + 1, true, false, none, true, true⟩

/-- The server selector of `mysql_connect.main` (lines 536–551): empty input
exits 1; a pure-digit input is an index into the listed servers, out of range
exits 1; any other input is passed through as the server name. -/
def select_server (servers : List String) (raw : String) : Option String :=
  let server_input := pyStrip raw
  if server_input = "" then none
  else if pyIsDigit server_input then
    match pyParseInt server_input with
    | some k =>
        if 0 ≤ k - 1 ∧ k - 1 < (servers.length : Int) then
          servers[(k - 1).toNat]?
        else none
    | none => none
  else some server_input

end MySQLConnect

namespace S3Manager

/-- Model of `select_bucket` (lines 167–197).  `buckets` are the listed bucket
names, `raw` the one input line.  The input is stripped; a pure-digit input is
a 1-based index (out of range falls through to the `Invalid selection`
message, returning `None`); any non-digit input — the empty string included —
is returned as-is as the bucket name. -/
def select_bucket (buckets : List String) (raw : String) : Option String :=
  if buckets.isEmpty then none
  else
    let selection := pyStrip raw
    if pyIsDigit selection then
      match pyParseInt selection with
      | some k =>
          if 0 ≤ k - 1 ∧ k - 1 < (buckets.length : Int) then
            buckets[(k - 1).toNat]?
          else none
      | none => none
    else some selection

end S3Manager

namespace S3Evidence

/-- Model of `prompt_output_path` (lines 117–134).  `userInput` is the typed
directory (already `.strip()`-ed by the source), `pathExists` the filesystem
view, `mkdirOk` whether `output_dir.mkdir(parents=True)` succeeds.  The
default `Path.home() / "Desktop"` is rendered `~/Desktop`.  When the
directory does not exist and `mkdir` raises, the function prints
`Could not create directory` and calls `exit(1)` — modelled as `none`; it
does not fall back to any other directory. -/
def prompt_output_path (userInput : String) (pathExists : String → Bool)
    (mkdirOk : Bool) : Option String :=
  let user_input := pyStrip userInput
  let output_dir := if user_input = "" then "~/Desktop" else user_input
  if pathExists output_dir then some output_dir
  else if mkdirOk then some output_dir
  else none

end S3Evidence

namespace MySQLManager

/-- The names bound at module level in `mysql_manager.py`: the three imports
of lines 7–9 and the function definitions.  `os` is not among them — the only
`import os` in the file (line 87) is inside `main()`, which in Python binds a
local name of `main` and never touches the module globals that
`list_databases` / `create_database` / `delete_database` resolve `os`
against. -/
def moduleGlobals : List String :=
  ["subprocess", "getpass", "sys", "get_mysql_credentials", "list_databases",
   "create_database", "delete_database", "show_usage", "main"]

/-- Python global-name lookup for this module: `NameError` unless bound. -/
def hasGlobal (n : String) : Bool :=
  moduleGlobals.contains n

/-- Observable effects of one `mysql_manager.py` command run. -/
structure MysqlRun where
  /-- the `get_mysql_credentials` username/password prompts were shown -/
  credentialPromptShown : Bool
  /-- the `Are you sure you want to delete …` prompt was shown -/
  confirmationPromptShown : Bool
  /-- SQL statements executed through the `mysql` subprocess, in order -/
  mysqlStatements : List String
  /-- the run crashed with an uncaught `NameError` -/
  raisedNameError : Bool
deriving Repr, DecidableEq

/-- Run that returned before prompting for credentials. -/
def earlyReturn : MysqlRun :=
  ⟨false, false, [], false⟩

/-- Model of `list_databases` (lines 16–29): credentials are prompted, then
line 18 builds `env` from `os.environ` — a lookup of the global name `os`,
which raises `NameError` when unbound, before the `SHOW DATABASES;`
subprocess. -/
def list_databases : MysqlRun :=
  if hasGlobal "os" then ⟨true, false, ["SHOW DATABASES;"], false⟩
  else ⟨true, false, [], true⟩

/-- Model of `create_database` (lines 31–45): resolve the name (argument or
prompt), prompt for credentials, then line 38 looks up the global `os`
before the `CREATE DATABASE` subprocess. -/
def create_database (arg : Option String) (typed : String) : MysqlRun :=
  let name := match arg with
    | some n => if n = "" then pyStrip typed else n
    | none => pyStrip typed
  if name = "" then earlyReturn
  else if hasGlobal "os" then
    ⟨true, false, ["CREATE DATABASE IF NOT EXISTS `" ++ name ++ "`;"], false⟩
  else ⟨true, false, [], true⟩

/-- Model of `delete_database` (lines 47–65): resolve the name, prompt for
credentials (line 53), then line 54 looks up the global `os` — before the
confirmation prompt of line 55 — and only past both does the `DROP DATABASE`
subprocess run (confirmation accepted iff stripped lowercase input is
`y`). -/
def delete_database (arg : Option String) (typed confirm : String) :
    MysqlRun :=
  let name := match arg with
    | some n => if n = "" then pyStrip typed else n
    | none => pyStrip typed
  if name = "" then earlyReturn
  else if hasGlobal "os" then
    if pyLower (pyStrip confirm) ≠ "y" then ⟨true, true, [], false⟩
    else ⟨true, true, ["DROP DATABASE IF EXISTS `" ++ name ++ "`;"], false⟩
  else ⟨true, false, [], true⟩

/-- Model of `main` (lines 86–101): `import os` binds only a `main`-local
name; dispatch on the first argument. -/
def mysql_manager_main (args : List String) (typed confirm : String) :
    MysqlRun :=
  match args with
  | [] => earlyReturn
  | cmd :: rest =>
      if cmd = "help" then earlyReturn
      else
        let name := rest.head?
        if cmd = "list" then list_databases
        else if cmd = "create" then create_database name typed
        else if cmd = "delete" then delete_database name typed confirm
        else earlyReturn

end MySQLManager

/-! ## Supporting lemmas -/

theorem pyCharLower_of_digit (c : Char) (h : pyIsDigitChar c = true) :
    pyCharLower c = c := by
  unfold pyIsDigitChar at h
  unfold pyCharLower
  rw [if_neg]
  intro ⟨hA, _⟩
  simp only [decide_eq_true_eq, Bool.and_eq_true] at h
  have h9 : c ≤ '9' := h.2
  have : ('A' : Char) ≤ '9' := le_trans hA h9
  exact absurd this (by decide)

theorem map_pyCharLower_of_digits (l : List Char) (h : l.all pyIsDigitChar = true) :
    l.map pyCharLower = l := by
  induction l with
  | nil => rfl
  | cons c cs ih =>
    simp only [List.all_cons, Bool.and_eq_true] at h
    simp only [List.map_cons, pyCharLower_of_digit c h.1, ih h.2]

theorem pyLower_of_digits (s : String) (h : s.data.all pyIsDigitChar = true) :
    pyLower s = s := by
  unfold pyLower
  rw [map_pyCharLower_of_digits s.data h]

theorem pyIsDigit_lower_ne_q (s : String) (h : pyIsDigit s = true) :
    pyLower s ≠ "q" := by
  unfold pyIsDigit at h
  simp only [Bool.and_eq_true] at h
  rw [pyLower_of_digits s h.2]
  intro hq
  subst hq
  have := h.2
  simp [List.all_eq_true] at this
  exact absurd (this) (by decide)

namespace EC2Evidence

theorem foldl_detailLine_data (details : List (String × String)) (init : String) :
    (details.foldl (fun acc kv => acc ++ detailLine kv) init).data =
      init.data ++ detailsData details := by
  induction details generalizing init with
  | nil => simp [detailsData]
  | cons kv t ih =>
    simp only [List.foldl_cons, detailsData, List.foldr_cons]
    rw [ih (init ++ detailLine kv), String.data_append]
    simp [detailsData, List.append_assoc]

theorem report_content_data (instance_id action : String)
    (details : List (String × String)) (env : ReportEnv) :
    (report_content instance_id action details env).data =
      (evidence_header instance_id action env).data ++ detailsData details ++
        report_footer.data := by
  unfold report_content
  rw [String.data_append, foldl_detailLine_data]

theorem detailLine_infix_detailsData (details : List (String × String))
    (k v : String) (h : (k, v) ∈ details) :
    (detailLine (k, v)).data <:+: detailsData details := by
  induction details with
  | nil => cases h
  | cons kv t ih =>
    simp only [detailsData, List.foldr_cons]
    rcases List.mem_cons.mp h with h1 | h1
    · subst h1
      exact ⟨[], t.foldr (fun kv acc => (detailLine kv).data ++ acc) [], by simp [detailsData]⟩
    · rcases ih h1 with ⟨s, t2, hst⟩
      refine ⟨(detailLine kv).data ++ s, t2, ?_⟩
      have : (detailLine kv).data ++ (s ++ (detailLine (k, v)).data ++ t2) =
          (detailLine kv).data ++ detailsData t := by rw [hst]
      simpa [List.append_assoc, detailsData] using this

end EC2Evidence

namespace MySQLConnect

theorem ssh_wait_loop_none (fuel : Nat) :
    ∀ (start : Nat) (probe : Nat → Bool),
      (∀ j, start ≤ j → j < start + fuel → probe j = false) →
      ssh_wait_loop fuel start probe = none := by
  induction fuel with
  | zero => intro start probe _; rfl
  | succ f ih =>
    intro start probe h
    unfold ssh_wait_loop
    rw [h start (le_refl start) (by omega)]
    exact ih (start + 1) probe (fun j h1 h2 => h j (by omega) (by omega))

theorem ssh_wait_loop_some_lt (fuel : Nat) :
    ∀ (start : Nat) (probe : Nat → Bool) (j : Nat),
      ssh_wait_loop fuel start probe = some j → j < start + fuel := by
  induction fuel with
  | zero => intro start probe j h; cases h
  | succ f ih =>
    intro start probe j h
    unfold ssh_wait_loop at h
    by_cases hp : probe start = true
    · rw [hp, if_pos rfl] at h
      cases h
      omega
    · rw [Bool.not_eq_true] at hp
      rw [hp] at h
      simp only [Bool.false_eq_true, if_false] at h
      have := ih (start + 1) probe j h
      omega

end MySQLConnect

/-! ## The claims -/

/-- C1: in `delete_snapshot` the first prompt demands the exact-case literal
`DELETE` and the second a case-insensitive `yes`; any first input other than
`DELETE` (lowercase `delete` included) aborts before the second prompt is
shown, and failing either prompt leaves no side effect: the audit report is
not written and no `ec2.delete_snapshot` provider call is issued. -/
theorem delete_snapshot_double_confirmation
    (arg : Option String) (listed : List EC2Evidence.SnapInfo)
    (selection : String) (verifyOk : String → Bool)
    (reason confirm1 confirm2 : String)
    (hfail : confirm1 ≠ "DELETE" ∨ pyLower confirm2 ≠ "yes") :
    (confirm1 ≠ "DELETE" →
      (EC2Evidence.delete_snapshot arg listed selection verifyOk reason
        confirm1 confirm2).secondPromptShown = false) ∧
    (EC2Evidence.delete_snapshot arg listed selection verifyOk reason
      confirm1 confirm2).auditWritten = false ∧
    (EC2Evidence.delete_snapshot arg listed selection verifyOk reason
      confirm1 confirm2).deleteCalls = [] := by
  have hgo : ∀ id : String,
      (¬confirm1 = "DELETE" →
        (EC2Evidence.delete_snapshot_confirm_phase id verifyOk reason confirm1
          confirm2).secondPromptShown = false) ∧
      (EC2Evidence.delete_snapshot_confirm_phase id verifyOk reason confirm1
        confirm2).auditWritten = false ∧
      (EC2Evidence.delete_snapshot_confirm_phase id verifyOk reason confirm1
        confirm2).deleteCalls = [] := by
    intro id
    unfold EC2Evidence.delete_snapshot_confirm_phase
    split
    · simp [EC2Evidence.abortedRun]
    · split
      · simp [EC2Evidence.abortedRun]
      · split
        · simp
        · split
          · simp_all
          · simp_all
  unfold EC2Evidence.delete_snapshot
  cases EC2Evidence.resolve_snapshot_id arg listed selection with
  | none => simp [EC2Evidence.abortedRun]
  | some id => exact hgo id

/-- C1 witness: with first confirmation `delete` (lowercase) the run aborts
before the second prompt, writes no audit report and issues no delete call. -/
theorem delete_snapshot_double_confirmation_witness :
    ("delete" ≠ "DELETE" →
      (EC2Evidence.delete_snapshot (some "snap-0a1b2c3d") [] "" (fun _ => true)
        "authorized cleanup" "delete" "yes").secondPromptShown = false) ∧
    (EC2Evidence.delete_snapshot (some "snap-0a1b2c3d") [] "" (fun _ => true)
      "authorized cleanup" "delete" "yes").auditWritten = false ∧
    (EC2Evidence.delete_snapshot (some "snap-0a1b2c3d") [] "" (fun _ => true)
      "authorized cleanup" "delete" "yes").deleteCalls = [] :=
  delete_snapshot_double_confirmation (some "snap-0a1b2c3d") [] ""
    (fun _ => true) "authorized cleanup" "delete" "yes"
    (Or.inl (by decide))

/-- C2: over a non-empty candidate list of length `N`, a pure-digit selection
whose value lies outside `[1, N]` makes the selector fail with the
invalid-selection error and resolve no id — in `get_instance_selection` the
result is the `invalidRange` message, and in the inline snapshot selector of
`delete_snapshot` the whole run aborts with no audit report and no provider
delete call. -/
theorem selector_out_of_range_rejected
    (raw : List EC2Evidence.InstanceInfo) (listed : List EC2Evidence.SnapInfo)
    (sel : String) (k : Int) (verifyOk : String → Bool)
    (reason c1 c2 : String)
    (hraw : EC2Evidence.liveInstances raw ≠ [])
    (hlisted : listed ≠ [])
    (hdigit : pyIsDigit sel = true)
    (hparse : pyParseInt sel = some k)
    (hout1 : ¬(1 ≤ k ∧ k ≤ ((EC2Evidence.liveInstances raw).length : Int)))
    (hout2 : ¬(1 ≤ k ∧ k ≤ (listed.length : Int))) :
    EC2Evidence.get_instance_selection raw sel =
      .invalidRange (EC2Evidence.liveInstances raw).length ∧
    EC2Evidence.delete_snapshot none listed sel verifyOk reason c1 c2 =
      EC2Evidence.abortedRun := by
  have hq := pyIsDigit_lower_ne_q sel hdigit
  constructor
  · unfold EC2Evidence.get_instance_selection
    rw [if_neg (by simpa [List.isEmpty_iff] using hraw), if_neg hq, hparse]
    simp only [if_neg hout1]
  · unfold EC2Evidence.delete_snapshot EC2Evidence.resolve_snapshot_id
    rw [if_neg (by simpa [List.isEmpty_iff] using hlisted), if_neg hq, hparse]
    simp only [if_neg hout2]

/-- C2 witness: one live instance and one snapshot listed, selection `2`. -/
theorem selector_out_of_range_rejected_witness :
    EC2Evidence.get_instance_selection
      [⟨"i-0abc", "web", "running", "t2.micro"⟩] "2" =
      .invalidRange 1 ∧
    EC2Evidence.delete_snapshot none [⟨"snap-0abc", "evidence", "completed"⟩]
      "2" (fun _ => true) "cleanup" "DELETE" "yes" =
      EC2Evidence.abortedRun := by
  have h := selector_out_of_range_rejected
    [⟨"i-0abc", "web", "running", "t2.micro"⟩]
    [⟨"snap-0abc", "evidence", "completed"⟩] "2" 2 (fun _ => true)
    "cleanup" "DELETE" "yes" (by decide) (by decide) (by decide) (by decide)
    (by decide) (by decide)
  simpa using h

/-- C7: for every `details` map handed to the report writer, the generated
report text contains every key/value pair verbatim in its string-rendered
form — the characters `"  <key>: <value>\n"` occur contiguously inside the
file content, in the evidence-details section between header and footer, so
each pair is recoverable from the written file. -/
theorem report_writer_round_trip (instance_id action : String)
    (details : List (String × String)) (env : EC2Evidence.ReportEnv)
    (k v : String) (hmem : (k, v) ∈ details) :
    ("  " ++ k ++ ": " ++ v ++ "\n").data <:+:
      (EC2Evidence.report_content instance_id action details env).data := by
  have h1 := EC2Evidence.detailLine_infix_detailsData details k v hmem
  rcases h1 with ⟨s, t, hst⟩
  rw [EC2Evidence.report_content_data]
  refine ⟨(EC2Evidence.evidence_header instance_id action env).data ++ s,
    t ++ EC2Evidence.report_footer.data, ?_⟩
  have hdl : (EC2Evidence.detailLine (k, v)).data =
      ("  " ++ k ++ ": " ++ v ++ "\n").data := rfl
  rw [← hdl, ← hst]
  simp [List.append_assoc]

/-- C7 witness: a concrete two-entry details map; the `Deletion Reason` pair
is recoverable from the report content. -/
theorem report_writer_round_trip_witness :
    ("  " ++ "Deletion Reason" ++ ": " ++ "court order 17" ++ "\n").data <:+:
      (EC2Evidence.report_content "snap-0abc" "SNAPSHOT_DELETION"
        [("Deleted Snapshot ID", "snap-0abc"),
         ("Deletion Reason", "court order 17")]
        ⟨"2025-01-01 10:00:00 UTC", "20250101-100000", "/home/u/Downloads",
          "", fun _ => true, true, "us-east-1", "analyst", "ws01"⟩).data :=
  report_writer_round_trip "snap-0abc" "SNAPSHOT_DELETION"
    [("Deleted Snapshot ID", "snap-0abc"),
     ("Deletion Reason", "court order 17")]
    ⟨"2025-01-01 10:00:00 UTC", "20250101-100000", "/home/u/Downloads",
      "", fun _ => true, true, "us-east-1", "analyst", "ws01"⟩
    "Deletion Reason" "court order 17" (by simp)

/-- C9: the `Colors` class of `ec2_evidence_preservation.py` defines no
`WHITE` attribute, so every `create_snapshot_evidence` run that created at
least one snapshot reaches the chain-of-custody printing, raises
`AttributeError` there, and the handler prints the
`Error during snapshot creation` message — although the snapshots were
created (one `create_snapshot` call per volume) and the evidence report was
already written. -/
theorem create_snapshot_evidence_white_attribute_error
    (volumes : List (String × String)) (case_number reason : String)
    (snapOf : String → String) (hv : volumes ≠ []) :
    pyGetattr EC2Evidence.ColorsAttrs "WHITE" = none ∧
    (EC2Evidence.create_snapshot_evidence true volumes case_number reason
      snapOf).snapshotCalls = volumes.map Prod.fst ∧
    (EC2Evidence.create_snapshot_evidence true volumes case_number reason
      snapOf).reportWritten = true ∧
    (EC2Evidence.create_snapshot_evidence true volumes case_number reason
      snapOf).completionBanner = true ∧
    (∃ suffix,
      (EC2Evidence.create_snapshot_evidence true volumes case_number reason
        snapOf).errorPrinted =
        some ("Error during snapshot creation" ++ suffix)) := by
  refine ⟨by decide, ?_⟩
  obtain ⟨v, vs, rfl⟩ := List.exists_cons_of_ne_nil hv
  refine ⟨?_, ?_, ?_, ?_⟩ <;>
    simp [EC2Evidence.create_snapshot_evidence, pyGetattr,
      EC2Evidence.ColorsAttrs]
  exact ⟨": type object Colors has no attribute WHITE", rfl⟩

/-- C9 witness: a single attached volume. -/
theorem create_snapshot_evidence_white_attribute_error_witness :
    pyGetattr EC2Evidence.ColorsAttrs "WHITE" = none ∧
    (EC2Evidence.create_snapshot_evidence true [("vol-0abc", "/dev/xvda")]
      "17" "incident response" (fun v => "snap-of-" ++ v)).snapshotCalls =
      [("vol-0abc", "/dev/xvda")].map Prod.fst ∧
    (EC2Evidence.create_snapshot_evidence true [("vol-0abc", "/dev/xvda")]
      "17" "incident response" (fun v => "snap-of-" ++ v)).reportWritten = true ∧
    (EC2Evidence.create_snapshot_evidence true [("vol-0abc", "/dev/xvda")]
      "17" "incident response" (fun v => "snap-of-" ++ v)).completionBanner = true ∧
    (∃ suffix,
      (EC2Evidence.create_snapshot_evidence true [("vol-0abc", "/dev/xvda")]
        "17" "incident response" (fun v => "snap-of-" ++ v)).errorPrinted =
        some ("Error during snapshot creation" ++ suffix)) :=
  create_snapshot_evidence_white_attribute_error [("vol-0abc", "/dev/xvda")]
    "17" "incident response" (fun v => "snap-of-" ++ v) (by decide)

/-! ## `src/AWS/ec2_manager.py` -/

/-- C3 counterexample: the claim treats any input other than a
case-insensitive match of `yes` as decline, but `remove_instance` strips
surrounding whitespace first (line 222): the input `" yes"` is not a
case-insensitive match of `"yes"`, yet the terminate call is issued. -/
theorem remove_instance_strip_counterexample :
    pyLower " yes" ≠ "yes" ∧
    (EC2Manager.remove_instance (some "i-0abc") "" (fun _ => true) " yes"
      true).terminateCalls = ["i-0abc"] ∧
    (EC2Manager.remove_instance (some "i-0abc") "" (fun _ => true) " yes"
      true).successMsg = true := by
  decide

/-- C3 (amended): the single-strength gate of `remove_instance` accepts
exactly the inputs whose whitespace-stripped, lowercased form equals `yes`;
when it accepts for an existing instance id, exactly one
`terminate_instances` call is issued for that id and the success message is
printed when the provider call succeeds; for every input whose stripped
lowercase form is not `yes` (so in particular for every non-match of `yes` up
to case, whitespace aside) no terminate call is issued and the operation is
cancelled. -/
theorem remove_instance_single_confirmation (id typed : String)
    (exists_ : String → Bool) (confirm : String) (terminateOk : Bool)
    (hid : id ≠ "") (hex : exists_ id = true) :
    (pyLower (pyStrip confirm) = "yes" →
      (EC2Manager.remove_instance (some id) typed exists_ confirm
        terminateOk).terminateCalls = [id] ∧
      (terminateOk = true →
        (EC2Manager.remove_instance (some id) typed exists_ confirm
          terminateOk).successMsg = true)) ∧
    (pyLower (pyStrip confirm) ≠ "yes" →
      (EC2Manager.remove_instance (some id) typed exists_ confirm
        terminateOk).terminateCalls = [] ∧
      (EC2Manager.remove_instance (some id) typed exists_ confirm
        terminateOk).cancelled = true) := by
  unfold EC2Manager.remove_instance
  simp only [Option.getD_some, if_neg hid, hex]
  constructor
  · intro hyes
    rw [if_neg (by simp), if_neg (by simp [hyes])]
    cases terminateOk <;> simp
  · intro hno
    rw [if_neg (by simp), if_pos (by simpa using hno)]
    simp

/-- C3 witness: confirmation `YES` on an existing instance. -/
theorem remove_instance_single_confirmation_witness :
    (pyLower (pyStrip "YES") = "yes" →
      (EC2Manager.remove_instance (some "i-0abc") "" (fun _ => true) "YES"
        true).terminateCalls = ["i-0abc"] ∧
      (true = true →
        (EC2Manager.remove_instance (some "i-0abc") "" (fun _ => true) "YES"
          true).successMsg = true)) ∧
    (pyLower (pyStrip "YES") ≠ "yes" →
      (EC2Manager.remove_instance (some "i-0abc") "" (fun _ => true) "YES"
        true).terminateCalls = [] ∧
      (EC2Manager.remove_instance (some "i-0abc") "" (fun _ => true) "YES"
        true).cancelled = true) :=
  remove_instance_single_confirmation "i-0abc" "" (fun _ => true) "YES" true
    (by decide) (by decide)

/-! ## `src/Azure/vm_manager.py` -/

/-- C8 counterexample: the claim says the exit code is 0 whenever help/usage
is displayed and 1 on an action failure, but `vm_manager.py` invoked with no
arguments displays the usage and exits 1; `ec2_manager.py` exits 0 when a
handled command's provider action fails; and `vm_manager.py list` exits 0
even when the `az vm list` call fails (the error is printed and
swallowed). -/
theorem exit_code_claim_counterexample :
    ((VMManager.vm_manager_main [] true true true [] "" true "" true
        true).usageShown = true ∧
      (VMManager.vm_manager_main [] true true true [] "" true "" true
        true).exitCode = 1) ∧
    (EC2Manager.ec2_manager_main true ["remove"] false).exitCode = 0 ∧
    (VMManager.vm_manager_main ["list"] true false true [] "" true "" true
      true).exitCode = 0 := by
  decide

/-- C8 (amended): exit codes of the two dispatchers.  `ec2_manager`: 1 on
missing credentials; 0 on the no-argument usage display and on the help
variants; 0 for every handled command whether or not the action succeeds
(handlers swallow provider errors); 1 on an unknown command.  `vm_manager`:
1 (with usage) on no arguments; 0 (with help) for argparse `-h`/`--help`;
2 for a command outside the argparse choices; 0 for `help`; 1 on missing
prerequisites; `list` always exits 0, a failed listing included; `create`
exits 0 when resource-group creation fails (swallowed) and otherwise 0/1 as
the VM-creation call succeeds/fails; `stop` (like `start`/`delete`) with a
named VM exits 1 when the lookup fails and otherwise 0/1 as the action
succeeds/fails, while its interactive form swallows a listing failure
(exit 0) and exits 1 on an unparsable selection; a declined `delete`
confirmation exits 0. -/
theorem exit_codes_amended
    (credsOk listOk parseOk found rgReady actionOk : Bool)
    (c name selection confirm : String) (rest candidates : List String)
    (hname : name ≠ "")
    (hsel0 : pyStrip selection ≠ "0") (hselE : pyStrip selection ≠ "")
    (hselP : pyParseInt (pyStrip selection) = none)
    (hcand : ¬candidates.isEmpty)
    (hconf : pyLower (pyStrip confirm) ≠ "y") :
    ((EC2Manager.ec2_manager_main false (c :: rest) actionOk).exitCode = 1 ∧
     EC2Manager.ec2_manager_main credsOk [] actionOk =
        (if credsOk then ⟨0, true⟩ else ⟨1, false⟩) ∧
     (credsOk = true → pyLower c ∈ EC2Manager.handledCommands →
        (EC2Manager.ec2_manager_main credsOk (c :: rest) actionOk).exitCode =
          0) ∧
     (credsOk = true → pyLower c ∈ ["help", "--help", "-h"] →
        EC2Manager.ec2_manager_main credsOk (c :: rest) actionOk =
          ⟨0, true⟩) ∧
     (credsOk = true → pyLower c ∉ EC2Manager.handledCommands →
        pyLower c ∉ ["help", "--help", "-h"] →
        (EC2Manager.ec2_manager_main credsOk (c :: rest) actionOk).exitCode =
          1)) ∧
    (VMManager.vm_manager_main [] credsOk listOk parseOk candidates selection
        found confirm rgReady actionOk = ⟨1, true⟩ ∧
     VMManager.vm_manager_main ("-h" :: rest) credsOk listOk parseOk
        candidates selection found confirm rgReady actionOk = ⟨0, true⟩ ∧
     VMManager.vm_manager_main ("--help" :: rest) credsOk listOk parseOk
        candidates selection found confirm rgReady actionOk = ⟨0, true⟩ ∧
     (c ∉ VMManager.commandChoices → c ≠ "-h" → c ≠ "--help" →
        (VMManager.vm_manager_main (c :: rest) credsOk listOk parseOk
          candidates selection found confirm rgReady actionOk).exitCode =
          2) ∧
     VMManager.vm_manager_main ("help" :: rest) credsOk listOk parseOk
        candidates selection found confirm rgReady actionOk = ⟨0, true⟩ ∧
     (c ∈ VMManager.commandChoices → c ≠ "help" →
        (VMManager.vm_manager_main (c :: rest) false listOk parseOk
          candidates selection found confirm rgReady actionOk).exitCode =
          1)) ∧
    ((VMManager.vm_manager_main ("list" :: rest) true listOk parseOk
        candidates selection found confirm rgReady actionOk).exitCode = 0 ∧
     (VMManager.vm_manager_main ("create" :: rest) true listOk parseOk
        candidates selection found confirm false actionOk).exitCode = 0 ∧
     (VMManager.vm_manager_main ("create" :: rest) true listOk parseOk
        candidates selection found confirm true actionOk).exitCode =
        (if actionOk then 0 else 1) ∧
     (VMManager.vm_manager_main ["stop", name] true listOk parseOk
        candidates selection found confirm rgReady actionOk).exitCode =
        (if listOk && parseOk && found then (if actionOk then 0 else 1)
          else 1) ∧
     (VMManager.vm_manager_main ["stop"] true false parseOk candidates
        selection found confirm rgReady actionOk).exitCode = 0 ∧
     (VMManager.vm_manager_main ["stop"] true true true candidates selection
        found confirm rgReady actionOk).exitCode = 1 ∧
     (VMManager.vm_manager_main ["delete", name] true true true candidates
        selection true confirm rgReady actionOk).exitCode = 0) := by
  refine ⟨⟨?_, ?_, ?_, ?_, ?_⟩, ⟨?_, ?_, ?_, ?_, ?_, ?_⟩,
    ?_, ?_, ?_, ?_, ?_, ?_, ?_⟩
  · simp [EC2Manager.ec2_manager_main]
  · cases credsOk <;> simp [EC2Manager.ec2_manager_main]
  · intro hc hmem
    simp [EC2Manager.ec2_manager_main, hc, hmem]
  · intro hc hmem
    have hh : pyLower c ∉ EC2Manager.handledCommands := by
      simp only [List.mem_cons, List.not_mem_nil, or_false] at hmem
      rcases hmem with h | h | h <;> rw [h] <;> decide
    simp [EC2Manager.ec2_manager_main, hc, hh, hmem]
  · intro hc hmem hhelp
    simp only [EC2Manager.ec2_manager_main, hc]
    rw [if_neg (by simp), if_neg (by simpa using hmem),
      if_neg (by simpa using hhelp)]
  · rfl
  · simp [VMManager.vm_manager_main]
  · simp [VMManager.vm_manager_main]
  · intro hc h1 h2
    simp [VMManager.vm_manager_main, h1, h2, hc]
  · simp [VMManager.vm_manager_main, VMManager.commandChoices]
  · intro hmem hne
    have h1 : c ≠ "-h" := by rintro rfl; revert hmem; decide
    have h2 : c ≠ "--help" := by rintro rfl; revert hmem; decide
    simp [VMManager.vm_manager_main, h1, h2, hmem, hne]
  · cases listOk <;> cases parseOk <;>
      simp [VMManager.vm_manager_main, VMManager.commandChoices,
        VMManager.list_vms]
  · simp [VMManager.vm_manager_main, VMManager.commandChoices,
      VMManager.create_vm]
  · cases actionOk <;>
      simp [VMManager.vm_manager_main, VMManager.commandChoices,
        VMManager.create_vm]
  · cases listOk <;> cases parseOk <;> cases found <;> cases actionOk <;>
      simp [VMManager.vm_manager_main, VMManager.commandChoices,
        VMManager.stop_vm, VMManager.vm_power_action,
        VMManager.resolve_named_vm, hname]
  · simp [VMManager.vm_manager_main, VMManager.commandChoices,
      VMManager.stop_vm, VMManager.vm_power_action,
      VMManager.interactive_vm_selection]
  · simp [VMManager.vm_manager_main, VMManager.commandChoices,
      VMManager.stop_vm, VMManager.vm_power_action,
      VMManager.interactive_vm_selection, hcand, hsel0, hselE, hselP]
  · simp [VMManager.vm_manager_main, VMManager.commandChoices,
      VMManager.delete_vm, VMManager.resolve_named_vm, hname, hconf]

/-- C8 witness: exit codes at concrete invocations — `ec2_manager remove`
with a failing action (0), `ec2_manager help` (0), `ec2_manager badcmd` (1),
`vm_manager` with no arguments (1, usage), `vm_manager list` with a failing
listing (0), `vm_manager create` with a failed resource group (0),
`vm_manager stop vm1` with a failing action (1), and `vm_manager delete vm1`
declined with `n` (0). -/
theorem exit_codes_amended_witness :
    (EC2Manager.ec2_manager_main true ["remove"] false).exitCode = 0 ∧
    EC2Manager.ec2_manager_main true ["help"] false =
      (⟨0, true⟩ : EC2Manager.MainRun) ∧
    (EC2Manager.ec2_manager_main true ["badcmd"] false).exitCode = 1 ∧
    VMManager.vm_manager_main [] true true true ["vm1"] "abc" true "n" true
      false = (⟨1, true⟩ : VMManager.MainRun) ∧
    (VMManager.vm_manager_main ["list"] true false true ["vm1"] "abc" true
      "n" true false).exitCode = 0 ∧
    (VMManager.vm_manager_main ["create"] true true true ["vm1"] "abc" true
      "n" false false).exitCode = 0 ∧
    (VMManager.vm_manager_main ["stop", "vm1"] true true true ["vm1"] "abc"
      true "n" true false).exitCode = 1 ∧
    (VMManager.vm_manager_main ["delete", "vm1"] true true true ["vm1"]
      "abc" true "n" true false).exitCode = 0 := by
  obtain ⟨⟨e1, e2, e3, e4, e5⟩, ⟨v1, v2, v3, v4, v5, v6⟩,
      h1, h2, h3, h4, h5, h6, h7⟩ :=
    exit_codes_amended true false true true true false "remove" "vm1" "abc"
      "n" [] ["vm1"] (by decide) (by decide) (by decide) (by decide)
      (by decide) (by decide)
  obtain ⟨⟨f1, f2, f3, f4, f5⟩, -, -⟩ :=
    exit_codes_amended true false true true true false "badcmd" "vm1" "abc"
      "n" [] ["vm1"] (by decide) (by decide) (by decide) (by decide)
      (by decide) (by decide)
  obtain ⟨⟨g1, g2, g3, g4, g5⟩, -, -⟩ :=
    exit_codes_amended true false true true true false "help" "vm1" "abc"
      "n" [] ["vm1"] (by decide) (by decide) (by decide) (by decide)
      (by decide) (by decide)
  refine ⟨e3 rfl (by decide), g4 rfl (by decide), ?_, v1, h1, h2, ?_, h7⟩
  · exact f5 rfl (by decide) (by decide)
  · simpa using h4

/-! ## `src/Azure/mysql_connect.py` -/

/-- C4: the SSH tunnel liveness wait of `connect_via_jumpserver` performs at
most 60 probe attempts; in every run in which no probe succeeds within the
bound, the function prints the timeout error and the process exits with a
non-zero code without the MySQL database connection ever being attempted. -/
theorem ssh_wait_bounded_timeout (probe : Nat → Bool)
    (mysql_user mysql_password : String) (mysqlOk : Bool) :
    (MySQLConnect.connect_via_jumpserver probe mysql_user mysql_password
      mysqlOk).probeAttempts ≤ 60 ∧
    ((∀ j, j < 60 → probe j = false) →
      (MySQLConnect.connect_via_jumpserver probe mysql_user mysql_password
        mysqlOk).timeoutErrorPrinted = true ∧
      (MySQLConnect.connect_via_jumpserver probe mysql_user mysql_password
        mysqlOk).exitCode = some 1 ∧
      (MySQLConnect.connect_via_jumpserver probe mysql_user mysql_password
        mysqlOk).mysqlAttempted = false) := by
  constructor
  · unfold MySQLConnect.connect_via_jumpserver
    cases hw : MySQLConnect.ssh_wait_loop 60 0 probe with
    | none => simp
    | some i =>
        have hlt := MySQLConnect.ssh_wait_loop_some_lt 60 0 probe i hw
        by_cases h1 : mysql_user = ""
        · simp only [if_pos h1]
          omega
        · by_cases h2 : mysql_password = ""
          · simp only [if_neg h1, if_pos h2]
            omega
          · simp only [if_neg h1, if_neg h2]
            omega
  · intro hfail
    have hnone : MySQLConnect.ssh_wait_loop 60 0 probe = none :=
      MySQLConnect.ssh_wait_loop_none 60 0 probe
        (fun j _ h2 => hfail j (by omega))
    unfold MySQLConnect.connect_via_jumpserver
    rw [hnone]
    exact ⟨rfl, rfl, rfl⟩

/-- C4 witness: the always-failing probe. -/
theorem ssh_wait_bounded_timeout_witness :
    (MySQLConnect.connect_via_jumpserver (fun _ => false) "root" "pw"
      true).probeAttempts ≤ 60 ∧
    (MySQLConnect.connect_via_jumpserver (fun _ => false) "root" "pw"
      true).timeoutErrorPrinted = true ∧
    (MySQLConnect.connect_via_jumpserver (fun _ => false) "root" "pw"
      true).exitCode = some 1 ∧
    (MySQLConnect.connect_via_jumpserver (fun _ => false) "root" "pw"
      true).mysqlAttempted = false := by
  have h := ssh_wait_bounded_timeout (fun _ => false) "root" "pw" true
  have h2 := h.2 (fun _ _ => rfl)
  exact ⟨h.1, h2.1, h2.2.1, h2.2.2⟩

/-! ## `src/AWS/s3_manager.py` -/

/-- C5 counterexample: the claim says non-digit, non-empty selector input is
always passed through unvalidated as a literal resource id, but
`get_instance_selection` in `ec2_evidence_preservation.py` rejects it locally:
over a non-empty instance list, typing the literal instance id `i-0abc`
(non-digit, non-empty) yields the `Invalid selection. Please enter a valid
number` error and no resolved id, instead of a pass-through. -/
theorem selector_passthrough_counterexample :
    EC2Evidence.get_instance_selection
      [⟨"i-0abc", "web", "running", "t2.micro"⟩] "i-0abc" =
      EC2Evidence.SelectionResult.invalidNumber := by
  decide

/-- C5 (amended): `select_bucket` (s3_manager) and the server selector of
`mysql_connect.main` pass non-digit, non-empty input through unvalidated as a
literal resource id, leaving invalidity to the provider-side not-found error;
`get_instance_selection` (ec2_evidence_preservation) instead rejects
locally — any input that `int()` cannot parse, other than the cancel token
`q`, produces the invalid-selection error and no resolved id. -/
theorem selector_passthrough_amended (buckets servers : List String)
    (raw : List EC2Evidence.InstanceInfo) (sel : String)
    (hnd : pyIsDigit (pyStrip sel) = false) (hne : pyStrip sel ≠ "")
    (hb : ¬buckets.isEmpty) (hs : ¬(EC2Evidence.liveInstances raw).isEmpty)
    (hq : pyLower sel ≠ "q") (hp : pyParseInt sel = none) :
    S3Manager.select_bucket buckets sel = some (pyStrip sel) ∧
    MySQLConnect.select_server servers sel = some (pyStrip sel) ∧
    EC2Evidence.get_instance_selection raw sel =
      EC2Evidence.SelectionResult.invalidNumber := by
  refine ⟨?_, ?_, ?_⟩
  · unfold S3Manager.select_bucket
    rw [if_neg (by simpa using hb)]
    simp only [hnd, Bool.false_eq_true, if_false]
  · unfold MySQLConnect.select_server
    rw [if_neg hne]
    simp only [hnd, Bool.false_eq_true, if_false]
  · unfold EC2Evidence.get_instance_selection
    rw [if_neg (by simpa using hs), if_neg hq, hp]

/-- C5 witness: the non-digit input `my-bucket` over non-empty candidate
lists. -/
theorem selector_passthrough_amended_witness :
    S3Manager.select_bucket ["logs", "backups"] "my-bucket" =
      some (pyStrip "my-bucket") ∧
    MySQLConnect.select_server ["db1"] "my-bucket" =
      some (pyStrip "my-bucket") ∧
    EC2Evidence.get_instance_selection
      [⟨"i-0abc", "web", "running", "t2.micro"⟩] "my-bucket" =
      EC2Evidence.SelectionResult.invalidNumber :=
  selector_passthrough_amended ["logs", "backups"] ["db1"]
    [⟨"i-0abc", "web", "running", "t2.micro"⟩] "my-bucket"
    (by decide) (by decide) (by decide) (by decide) (by decide) (by decide)

/-! ## `src/AWS/s3_bucket_evidence.py` -/

/-- C6 counterexample: the claim says every cited report writer falls back to
the current working directory when directory creation fails, but
`prompt_output_path` in `s3_bucket_evidence.py` aborts instead: with a typed
directory that does not exist and a failing `mkdir`, the run takes the
`exit(1)` path (`none`) — no fallback directory is returned and no file is
written. -/
theorem report_dir_fallback_counterexample :
    S3Evidence.prompt_output_path "evidence-out" (fun _ => false) false =
      none := by
  decide

/-- C6 (amended): `new_evidence_report` (ec2_evidence_preservation) creates
the resolved directory when absent and falls back to the current working
directory `.` when creation fails, and distinct second-granularity filename
timestamps give distinct report filenames (runs in the same second collide,
which the source does not handle); `prompt_output_path`
(s3_bucket_evidence) instead aborts the process with exit code 1 when
directory creation fails. -/
theorem report_writer_directory_and_uniqueness (env : EC2Evidence.ReportEnv)
    (instance_id ts1 ts2 userInput : String) (pathExists : String → Bool)
    (hts : ts1 ≠ ts2)
    (hnoexist : env.pathExists (EC2Evidence.chosen_save_path env) = false)
    (hmkfail : env.makedirsOk = false)
    (hnoexist2 : pathExists
      (if pyStrip userInput = "" then "~/Desktop" else pyStrip userInput) =
      false) :
    EC2Evidence.resolve_save_path env = "." ∧
    (∀ env2 : EC2Evidence.ReportEnv,
      env2.pathExists (EC2Evidence.chosen_save_path env2) = true →
      EC2Evidence.resolve_save_path env2 = EC2Evidence.chosen_save_path env2) ∧
    (∀ env3 : EC2Evidence.ReportEnv,
      env3.pathExists (EC2Evidence.chosen_save_path env3) = false →
      env3.makedirsOk = true →
      EC2Evidence.resolve_save_path env3 = EC2Evidence.chosen_save_path env3) ∧
    EC2Evidence.report_filename instance_id ts1 ≠
      EC2Evidence.report_filename instance_id ts2 ∧
    S3Evidence.prompt_output_path userInput pathExists false = none := by
  refine ⟨?_, ?_, ?_, ?_, ?_⟩
  · unfold EC2Evidence.resolve_save_path
    simp [hnoexist, hmkfail]
  · intro env2 h
    unfold EC2Evidence.resolve_save_path
    simp [h]
  · intro env3 h1 h2
    unfold EC2Evidence.resolve_save_path
    simp [h1, h2]
  · intro hEq
    apply hts
    have hdata := congrArg String.data hEq
    unfold EC2Evidence.report_filename at hdata
    simp only [String.data_append, List.append_assoc] at hdata
    have h1 := List.append_cancel_left hdata
    have h2 := List.append_cancel_left h1
    have h3 := List.append_cancel_left h2
    have h4 := List.append_cancel_right h3
    cases ts1
    cases ts2
    exact congrArg String.mk h4
  · unfold S3Evidence.prompt_output_path
    simp [hnoexist2]

/-- C6 witness: a report environment whose directory does not exist and whose
`makedirs` fails falls back to `.`, two distinct timestamps give distinct
filenames, and `prompt_output_path` with a failing `mkdir` aborts. -/
theorem report_writer_directory_and_uniqueness_witness :
    EC2Evidence.resolve_save_path
      ⟨"t", "20250101-100000", "/home/u/Downloads", "/data/case", fun _ => false,
        false, "us-east-1", "analyst", "ws01"⟩ = "." ∧
    (∀ env2 : EC2Evidence.ReportEnv,
      env2.pathExists (EC2Evidence.chosen_save_path env2) = true →
      EC2Evidence.resolve_save_path env2 = EC2Evidence.chosen_save_path env2) ∧
    (∀ env3 : EC2Evidence.ReportEnv,
      env3.pathExists (EC2Evidence.chosen_save_path env3) = false →
      env3.makedirsOk = true →
      EC2Evidence.resolve_save_path env3 = EC2Evidence.chosen_save_path env3) ∧
    EC2Evidence.report_filename "i-0abc" "20250101-100000" ≠
      EC2Evidence.report_filename "i-0abc" "20250101-100001" ∧
    S3Evidence.prompt_output_path "evidence-out" (fun _ => false) false =
      none :=
  report_writer_directory_and_uniqueness
    ⟨"t", "20250101-100000", "/home/u/Downloads", "/data/case", fun _ => false,
      false, "us-east-1", "analyst", "ws01"⟩
    "i-0abc" "20250101-100000" "20250101-100001" "evidence-out"
    (fun _ => false) (by decide) (by decide) rfl (by decide)

/-! ## `src/Azure/mysql_manager.py` -/

/-- C10: `os` is bound only function-locally inside `main`, so the `list`,
`create` and `delete` commands of `mysql_manager.py` all reach the unbound
global `os` at their `os.environ` expression and crash with `NameError`
before any `mysql` subprocess runs; for `delete` the crash comes after the
credential prompt and before the confirmation prompt, so neither the
confirmation nor the `DROP DATABASE` statement ever executes. -/
theorem mysql_manager_os_name_error (name : Option String)
    (typed confirm dbname : String) (hn : dbname ≠ "")
    (hname : name = some dbname ∨ (name = none ∧ pyStrip typed = dbname)) :
    MySQLManager.hasGlobal "os" = false ∧
    (MySQLManager.list_databases.raisedNameError = true ∧
      MySQLManager.list_databases.mysqlStatements = []) ∧
    ((MySQLManager.create_database name typed).raisedNameError = true ∧
      (MySQLManager.create_database name typed).mysqlStatements = []) ∧
    ((MySQLManager.delete_database name typed confirm).raisedNameError = true ∧
      (MySQLManager.delete_database name typed confirm).mysqlStatements = [] ∧
      (MySQLManager.delete_database name typed
        confirm).credentialPromptShown = true ∧
      (MySQLManager.delete_database name typed
        confirm).confirmationPromptShown = false) := by
  have hos : MySQLManager.hasGlobal "os" = false := by decide
  rcases hname with h | ⟨h1, h2⟩
  · subst h
    refine ⟨hos, ?_, ?_, ?_⟩ <;>
      simp [MySQLManager.list_databases, MySQLManager.create_database,
        MySQLManager.delete_database, hos, hn]
  · subst h1
    refine ⟨hos, ?_, ?_, ?_⟩ <;>
      simp [MySQLManager.list_databases, MySQLManager.create_database,
        MySQLManager.delete_database, hos, h2, hn]

/-- C10 witness: `delete testdb` with confirmation input `y`. -/
theorem mysql_manager_os_name_error_witness :
    MySQLManager.hasGlobal "os" = false ∧
    (MySQLManager.list_databases.raisedNameError = true ∧
      MySQLManager.list_databases.mysqlStatements = []) ∧
    ((MySQLManager.create_database (some "testdb") "").raisedNameError = true ∧
      (MySQLManager.create_database (some "testdb") "").mysqlStatements = []) ∧
    ((MySQLManager.delete_database (some "testdb") "" "y").raisedNameError = true ∧
      (MySQLManager.delete_database (some "testdb") "" "y").mysqlStatements = [] ∧
      (MySQLManager.delete_database (some "testdb") ""
        "y").credentialPromptShown = true ∧
      (MySQLManager.delete_database (some "testdb") ""
        "y").confirmationPromptShown = false) :=
  mysql_manager_os_name_error (some "testdb") "" "y" "testdb" (by decide)
    (Or.inl rfl)
